import Mathlib

/-!
Verification of the SMS chatbot repository (two scripts: `fullBot.py` and
`index.py`) against its natural-language specification.

The Python sources are shallowly embedded: strings are Lean `String`s
(treating the ASCII fragment of Python's str methods, which is the fragment
the program's comparisons and validations exercise), the global `sessions`
dict is a function `String → Option Session`, timestamps are integers, and
serial I/O is modelled by passing the raw response text that each read
would return.  Code paths on which Python would raise an uncaught exception
are modelled with `Except`/`Option`.
-/

/-! ## Python string-method models (ASCII fragment) -/

/-- The ASCII whitespace characters stripped by Python `str.strip()`. -/
def pySpace (c : Char) : Bool :=
  c = ' ' || c = '\t' || c = '\n' || c = '\r' || c = '\x0B' || c = '\x0C'

/-- Python `s.strip()` (ASCII whitespace). -/
def pyStrip (s : String) : String :=
  String.mk (((s.data.dropWhile pySpace).reverse.dropWhile pySpace).reverse)

/-- Python `s.lower()` (ASCII letters; the trigger keyword is ASCII). -/
def pyLower (s : String) : String :=
  String.mk (s.data.map Char.toLower)

/-- Here `isPrefOf pat l` is true when `pat` is an initial segment of `l`. -/
def isPrefOf : List Char → List Char → Bool
  | [], _ => true
  | _ :: _, [] => false
  | a :: as, b :: bs => a = b && isPrefOf as bs

/-- Scan for `pat` as a contiguous sublist of `l` (Python `pat in s`). -/
def hasSubList (pat : List Char) : List Char → Bool
  | [] => pat.isEmpty
  | b :: bs => isPrefOf pat (b :: bs) || hasSubList pat bs

/-- Python `pat in s` for strings. -/
def hasSub (s pat : String) : Bool := hasSubList pat.data s.data

/-- Python `s.startswith(pre)`. -/
def pyStarts (s pre : String) : Bool := isPrefOf pre.data s.data

/-- Python `s.isdigit()` on the ASCII fragment: non-empty and every
character a decimal digit.  (Python additionally accepts some non-ASCII
digit characters; the program's inputs of interest are ASCII.) -/
def pyIsDigit (s : String) : Bool := !s.data.isEmpty && s.data.all Char.isDigit

/-- Python `int(s)` on all-digit strings (the only context it is called in). -/
def pyInt (s : String) : Nat :=
  s.data.foldl (fun a c => a * 10 + (c.toNat - 48)) 0

/-- Python `s.split(c)` for a one-character separator, on character lists. -/
def splitOnCh (c : Char) : List Char → List (List Char)
  | [] => [[]]
  | a :: t =>
    if a = c then [] :: splitOnCh c t
    else
      match splitOnCh c t with
      | h :: t2 => (a :: h) :: t2
      | [] => [[a]]

/-- Python `s.split(c)` for strings. -/
def pySplit (s : String) (c : Char) : List String :=
  (splitOnCh c s.data).map String.mk

/-- Python `s.splitlines()` (ASCII line boundaries `\r\n`, `\r`, `\n`;
no trailing empty line for a terminal newline). -/
def splitLinesAux : List Char → List Char → List (List Char)
  | [], acc => if acc.isEmpty then [] else [acc.reverse]
  | '\r' :: '\n' :: rest, acc => acc.reverse :: splitLinesAux rest []
  | '\r' :: rest, acc => acc.reverse :: splitLinesAux rest []
  | '\n' :: rest, acc => acc.reverse :: splitLinesAux rest []
  | c :: rest, acc => splitLinesAux rest (c :: acc)

/-- Python `s.splitlines()` for strings. -/
def pySplitLines (s : String) : List String :=
  (splitLinesAux s.data []).map String.mk

/-! ## Shared shapes -/

/-- One inbound SMS as parsed from the `AT+CMGL` response
(`{"index": ..., "phone": ..., "content": ...}` in both scripts). -/
structure Msg where
  index : String
  phone : String
  content : String
deriving DecidableEq, Repr

/-! ## fullBot.py -/

namespace FullBot

/-- Constant `SESSION_TIMEOUT = 40 * 60` (fullBot.py line 12). -/
def SESSION_TIMEOUT : Int := 40 * 60

/-- The three languages stored in `session["lang"]`
(`"english" | "chichewa" | "tumbuka"`). -/
inductive Lang where
  | english
  | chichewa
  | tumbuka
deriving DecidableEq, Repr

/-- The string stored for each language. -/
def langStr : Lang → String
  | .english => "english"
  | .chichewa => "chichewa"
  | .tumbuka => "tumbuka"

/-- List `groupNames` (fullBot.py lines 17-36); index 0 unused. -/
def groupNames : List String :=
  ["", "Mkama", "Chilulu", "Chimnyanga", "Tchesamu", "Emcizini",
   "Mkamaumoza", "Kabira", "Chambizi", "Kanjuchi", "Tiphunzire",
   "Kanyenda", "Chivunguti", "Ukwe", "Mvunguti", "Chimbiya",
   "Lisasadzi", "Kanjeza"]

/-- Table `followup_questions` (fullBot.py lines 39-67). -/
def followup_questions : Lang → List String
  | .english =>
    ["Number of members present today",
     "Amount of shares collected today",
     "Amount of social fund collected today",
     "Amount borrowed today",
     "Amount repaid today",
     "Interest paid today",
     "Amount paid for penalties (latecomers and absentees)"]
  | .chichewa =>
    ["Anthu omwe anabwera lero",
     "Ndalama za ma sheya zotoleledwa lero",
     "Ndalama zadzidzidzi zatoleredwa lero",
     "Ndalama zomwe zabwerekedwa",
     "Ndalama zomwe zabwenzedwa",
     "Ndalama za chiongola dzanja yomwe yapelekedwa lero",
     "Ndalama za chilango zomwe zaperekedwa (ochedwa ndi ojomba)"]
  | .tumbuka =>
    ["Nambala ya ŵanthu agha wangwiza mwahuno ku gulu",
     "Ndalama ya masheya iyo yasonkheka yamwahuno",
     "Ndalama ya zizizi iyo yasonkheka yamwahuno",
     "Ndalama iyo yabwerekeka mwahuno",
     "Ndalama za ngongoli izo zawezgeka",
     "Ndalama ya interest iyo yasonkheka mwahuno",
     "Ndalama iyo yasonkheka lero mu vilango/kubuda"]

/-- Constant `LANGUAGE_MENU` (fullBot.py line 69). -/
def LANGUAGE_MENU : String :=
  "Choose your language:\n1. English\n2. Chichewa\n3. Chitumbuka"

/-- First numbered half of the group list (fullBot.py lines 72-88). -/
def group_list_first : String :=
  "1.  Mkama\n2.  Chilulu\n3.  Chimnyanga\n4.  Tchesamu\n5.  Emcizini\n6.  Mkamaumoza\n7.  Kabira\n8.  Chambizi"

/-- Second numbered half of the group list (fullBot.py lines 72-88). -/
def group_list_second : String :=
  "9.  Kanjuchi\n10. Tiphunzire\n11. Kanyenda\n12. Chivunguti\n13. Ukwe\n14. Mvunguti\n15. Chimbiya\n16. Lisasadzi\n17. Kanjeza"

/-- Table `group_list_parts[lang]` (fullBot.py lines 72-88): the two-part group
list; only the header line of the first part depends on the language. -/
def group_list_parts : Lang → String × String
  | .english =>
    ("Choose your group number from the list below:\n\n" ++ group_list_first,
     group_list_second)
  | .chichewa =>
    ("Sankhani nambala la gulu yanu:\n\n" ++ group_list_first, group_list_second)
  | .tumbuka =>
    ("Sankhani nambala la gulu yanu:\n\n" ++ group_list_first, group_list_second)

/-- One entry of the `sessions` dict (fullBot.py line 203):
`{"step": ..., "lang": ..., "answers": [...], "group": ..., "last_active": ...}`. -/
structure Session where
  step : Int
  lang : Option Lang
  group : Option String
  answers : List String
  last_active : Int
deriving DecidableEq, Repr

/-- The global `sessions` dict (fullBot.py line 91). -/
def Store : Type := String → Option Session

/-- Assignment `sessions[phone] = s`. -/
def setS (st : Store) (p : String) (s : Session) : Store :=
  fun q => if q = p then some s else st q

/-- Deletion `del sessions[phone]`. -/
def delS (st : Store) (p : String) : Store :=
  fun q => if q = p then none else st q

/-- One row handed to the CSV report sink: the four arguments
`save_to_csv(phone, lang, group_name, answers)` receives. -/
structure Row where
  phone : String
  lang : Option Lang
  group : String
  answers : List String
deriving DecidableEq, Repr

/-- How the Python csv module renders the language cell (`None` becomes
the empty string). -/
def langCell : Option Lang → String
  | some l => langStr l
  | none => ""

/-- Function `save_to_csv` (fullBot.py lines 158-186): the data row appended to the
CSV file, given the formatted timestamp `ts` (file handling and the header
row are outside the model). -/
def save_to_csv (phone : String) (lang : Option Lang) (group_name : String)
    (answers : List String) (ts : String) : List String :=
  [phone, langCell lang, group_name,
   answers.getD 0 "", answers.getD 1 "", answers.getD 2 "",
   answers.getD 3 "", answers.getD 4 "", answers.getD 5 "",
   answers.getD 6 "", ts]

/-- Function `handle_message` (fullBot.py lines 189-279).  Returns the updated
store, the list of SMS bodies sent to `phone` (in send order), and the
report row handed to `save_to_csv` on completion.  `.error st` models an
uncaught Python exception (only reachable when a session at step ≥ 0 has
no language recorded, where `followup_questions[lang]` /
`group_list_parts[lang]` would raise `KeyError`); the carried store is the
mutation state at raise time, since `process_message` catches and
continues. -/
def handle_message (st : Store) (phone rawText : String) (now : Int) :
    Except Store (Store × List String × Option Row) :=
  let text := pyStrip rawText
  -- Only start session if message contains "vsla" or session already exists
  if st phone = none ∧ hasSub (pyLower text) "vsla" = false then
    .ok (st, [], none)
  else
    -- Get or create session; refresh last_active
    let sess0 := (st phone).getD ⟨-1, none, none, [], now⟩
    let sess : Session := { sess0 with last_active := now }
    let st1 := setS st phone sess
    -- Step -1: language selection
    if sess.step = -1 then
      match (if text = "1" then some Lang.english
             else if text = "2" then some Lang.chichewa
             else if text = "3" then some Lang.tumbuka
             else none) with
      | none => .ok (st1, [LANGUAGE_MENU], none)
      | some l =>
        let st2 := setS st1 phone { sess with lang := some l, step := 0 }
        .ok (st2, [(group_list_parts l).1, (group_list_parts l).2], none)
    -- Step 0: group number
    else if sess.step = 0 then
      if pyIsDigit text ∧ 1 ≤ pyInt text ∧ pyInt text ≤ 17 then
        let st2 := setS st1 phone
          { sess with group := some (groupNames.getD (pyInt text) ""), step := 1 }
        match sess.lang with
        | none => .error st2
        | some l => .ok (st2, [(followup_questions l).getD 0 ""], none)
      else
        match sess.lang with
        | none => .error st1
        | some l =>
          .ok (st1, ["Invalid group number. " ++ (group_list_parts l).1,
                     (group_list_parts l).2], none)
    -- Steps 1..7: follow-up answers
    else if 1 ≤ sess.step ∧ sess.step ≤ 7 then
      if pyIsDigit text then
        let sessA : Session :=
          { sess with answers := sess.answers ++ [text], step := sess.step + 1 }
        let st2 := setS st1 phone sessA
        if sessA.step ≤ 7 then
          match sessA.lang with
          | none => .error st2
          | some l =>
            .ok (st2, [(followup_questions l).getD (sessA.step - 1).toNat ""], none)
        else
          -- all done: save, delete session, thank the sender
          .ok (delS st2 phone,
               ["Thank you! Your report has been received and saved."],
               some ⟨phone, sessA.lang, sessA.group.getD "", sessA.answers⟩)
      else
        match sess.lang with
        | none => .error st1
        | some l =>
          .ok (st1,
               ["Invalid number. " ++ (followup_questions l).getD (sess.step - 1).toNat ""],
               none)
    else
      .ok (st1, [], none)

/-- Success-token check of `send_sms` (fullBot.py line 124):
`"OK" in resp or "+CMGS" in resp`. -/
def send_ok_token (resp : String) : Bool :=
  hasSub resp "OK" || hasSub resp "+CMGS"

/-- The retry loop of `send_sms` (fullBot.py lines 106-131).  The serial
environment is modelled by `resps`, the raw response each attempt would
read (a missing entry, e.g. an I/O fault whose exception is caught as one
failed attempt, reads as `""`).  `used` counts attempts already performed;
returns (success, total attempts performed). -/
def send_attempts (resps : List String) : Nat → Nat → Bool × Nat
  | 0, used => (false, used)
  | n + 1, used =>
    if send_ok_token (resps.getD used "") then (true, used + 1)
    else send_attempts resps n (used + 1)

/-- Function `send_sms(ser, phone, message, retries=3)` (fullBot.py line 106),
abstracted over the per-attempt modem responses. -/
def send_sms (resps : List String) (retries : Nat := 3) : Bool × Nat :=
  send_attempts resps retries 0

/-- Extraction `index = line.split(":")[1].split(",")[0].strip()` (fullBot.py
line 144; the guard `line.startswith("+CMGL:")` guarantees the colon
exists, so the bare `except` fallback on line 146 is unreachable). -/
def extract_index (line : String) : String :=
  pyStrip (String.mk (((splitOnCh ':' line.data).getD 1 []
    |> splitOnCh ',').getD 0 []))

/-- Extraction `phone = parts[2].replace('"', '').strip() if len(parts) >= 3 else ""`
(fullBot.py line 147), where `parts = line.split(",")`. -/
def extract_phone (line : String) : String :=
  let parts := splitOnCh ',' line.data
  if 3 ≤ parts.length then
    pyStrip (String.mk ((parts.getD 2 []).filter (fun c => c ≠ '"')))
  else ""

/-- The scanning loop of `read_sms` (fullBot.py lines 137-152): `i` is the
loop counter over `lines`. -/
def read_loop (lines : List String) (i : Nat) : List Msg :=
  if _h : i < lines.length then
    let line := pyStrip (lines.getD i "")
    if pyStarts line "+CMGL:" then
      { index := extract_index line, phone := extract_phone line,
        content := if i + 1 < lines.length then pyStrip (lines.getD (i + 1) "") else "" }
        :: read_loop lines (i + 2)
    else read_loop lines (i + 1)
  else []
termination_by lines.length - i

/-- Function `read_sms` (fullBot.py lines 134-152), abstracted over the raw
`AT+CMGL="REC UNREAD"` response text. -/
def read_sms (raw : String) : List Msg := read_loop (pySplitLines raw) 0

/-- Function `process_message` (fullBot.py lines 282-294).  Returns the final
store, the replies sent, the report row (if any), and the list of modem
indices for which a `delete_sms` acknowledgment command was issued.  The
`try/except/finally` structure means an exception from `handle_message`
is swallowed and the deletion still runs. -/
def process_message (st : Store) (m : Msg) (now : Int) :
    Store × List String × Option Row × List String :=
  match handle_message st m.phone m.content now with
  | .error stE => (stE, [], none, [m.index])
  | .ok (st2, sent, rep) => (st2, sent, rep, [m.index])

/-- One sweep of `cleanup_sessions` (fullBot.py lines 297-305): delete
every session with `now - last_active > SESSION_TIMEOUT`. -/
def cleanup_sessions (st : Store) (now : Int) : Store :=
  fun p =>
    match st p with
    | some s => if now - s.last_active > SESSION_TIMEOUT then none else some s
    | none => none

end FullBot

/-! ## index.py -/

namespace IndexBot

/-- Constant `SESSION_TIMEOUT = 40 * 60` (index.py line 11). -/
def SESSION_TIMEOUT : Int := 40 * 60

/-- List `groupNames` (index.py lines 15-34); index 0 unused. -/
def groupNames : List String :=
  ["",
   "Mkama H&C Women\x27s Group", "Chilulu H&C Women\x27s Group",
   "Chimnyanga H&C Women\x27s Group", "Tchesamu H&C Women\x27s Group",
   "Emcizini H&C Women\x27s Group", "Mkamaumoza H&C Women\x27s Group",
   "Kabira H&C Women\x27s Group", "Chambizi H&C Women\x27s Group",
   "Kanjuchi H&C Womens Savings", "Tiphunzire nawo Women\x27s Group",
   "Kanyenda Bank Mkhonde", "Chivunguti Bank Mkhonde", "Ukwe Bank Mkhonde",
   "Mvunguti Bank Mkhonde", "Chimbiya H&C Women\x27s Group",
   "Lisasadzi Bank Mkhonde", "Kanjeza H&C Women\x27s Group"]

/-- The `session["data"]` dict (index.py): keys are set one step at a
time, so each is optional. -/
structure DataI where
  group_name : Option String := none
  amount_saved : Option String := none
  attendance : Option String := none
  social_fund : Option String := none
  loans_taken : Option String := none
  loans_repaid : Option String := none
  phone : Option String := none
deriving DecidableEq, Repr

/-- One entry of the `sessions` dict (index.py lines 120-125). -/
structure SessionI where
  step : Nat
  data : DataI
  last_active : Int
deriving DecidableEq, Repr

/-- The global `sessions` dict (index.py line 37). -/
def StoreI : Type := String → Option SessionI

/-- Assignment `sessions[phone] = s`. -/
def setS (st : StoreI) (p : String) (s : SessionI) : StoreI :=
  fun q => if q = p then some s else st q

/-- Deletion `del sessions[phone]`. -/
def delS (st : StoreI) (p : String) : StoreI :=
  fun q => if q = p then none else st q

/-- The report row `save_to_csv` (index.py lines 87-112) appends, minus
the timestamp cell: the seven `data` values in write order. -/
structure RowI where
  phone : String
  group_name : String
  amount_saved : String
  attendance : String
  social_fund : String
  loans_taken : String
  loans_repaid : String
deriving DecidableEq, Repr

/-- Function `handle_response` (index.py lines 116-189).  Returns the updated
store, the reply string, and the report row on completion.  The
`try/except` around the step dispatch turns a missing `data` key during
`save_to_csv` into the error reply, without deleting the session. -/
def handle_response (st : StoreI) (phone message : String) (now : Int) :
    StoreI × String × Option RowI :=
  let sess0 := (st phone).getD ⟨0, {}, now⟩
  let sess : SessionI := { sess0 with last_active := now }
  let msg := pyStrip message
  if sess.step = 0 then
    -- ask for group number
    if hasSub (pyLower msg) "vsla" then
      (setS st phone { sess with step := 1 },
       "Welcome! Choose your group number (1-17):", none)
    else
      (setS st phone sess,
       "Please start your message with \x27VSLA\x27 to report.", none)
  else if sess.step = 1 then
    -- group number
    if pyIsDigit msg ∧ 1 ≤ pyInt msg ∧ pyInt msg ≤ 17 then
      (setS st phone { sess with
         data := { sess.data with group_name := some (groupNames.getD (pyInt msg) "") },
         step := 2 },
       "Enter amount saved:", none)
    else (setS st phone sess, "Invalid group number. Choose 1-17:", none)
  else if sess.step = 2 then
    if pyIsDigit msg then
      (setS st phone { sess with
         data := { sess.data with amount_saved := some msg }, step := 3 },
       "Enter attendance:", none)
    else (setS st phone sess, "Invalid number. Enter amount saved:", none)
  else if sess.step = 3 then
    if pyIsDigit msg then
      (setS st phone { sess with
         data := { sess.data with attendance := some msg }, step := 4 },
       "Enter social fund amount:", none)
    else (setS st phone sess, "Invalid number. Enter attendance:", none)
  else if sess.step = 4 then
    if pyIsDigit msg then
      (setS st phone { sess with
         data := { sess.data with social_fund := some msg }, step := 5 },
       "Enter loans taken:", none)
    else (setS st phone sess, "Invalid number. Enter social fund amount:", none)
  else if sess.step = 5 then
    if pyIsDigit msg then
      (setS st phone { sess with
         data := { sess.data with loans_taken := some msg }, step := 6 },
       "Enter loans repaid:", none)
    else (setS st phone sess, "Invalid number. Enter loans taken:", none)
  else if sess.step = 6 then
    if pyIsDigit msg then
      let d : DataI :=
        { sess.data with loans_repaid := some msg, phone := some phone }
      match d.phone, d.group_name, d.amount_saved, d.attendance,
            d.social_fund, d.loans_taken, d.loans_repaid with
      | some a, some b, some c, some e, some f, some g, some h =>
        (delS (setS st phone { sess with data := d }) phone,
         "Thank you! Your report has been received.",
         some ⟨a, b, c, e, f, g, h⟩)
      | _, _, _, _, _, _, _ =>
        -- a missing data key makes save_to_csv raise KeyError, caught by
        -- the bare except: error reply, session kept
        (setS st phone { sess with data := d },
         "Error processing input. Please try again.", none)
    else (setS st phone sess, "Invalid number. Enter loans repaid:", none)
  else
    (setS st phone sess, "", none)

/-- Function `send_sms` (index.py lines 50-61): a single attempt whose success is
`"OK" in resp or ">" in resp`; returns (success, attempts performed). -/
def send_sms (resps : List String) : Bool × Nat :=
  (hasSub (resps.getD 0 "") "OK" || hasSub (resps.getD 0 "") ">", 1)

/-- Extraction `index = parts[0].split(":")[1].strip()` (index.py line 74), with
`parts = line.split(",")`; the `+CMGL:` guard puts the colon before any
comma, so the accesses cannot raise. -/
def extract_index (line : String) : String :=
  pyStrip (String.mk ((splitOnCh ':' ((splitOnCh ',' line.data).getD 0 [])).getD 1 []))

/-- Extraction `phone = parts[2].replace('"', '').strip()` (index.py line 75);
unlike fullBot.py there is no length guard, so callers must check
`3 ≤ parts.length` themselves. -/
def extract_phone (line : String) : String :=
  pyStrip (String.mk (((splitOnCh ',' line.data).getD 2 []).filter (fun c => c ≠ '"')))

/-- The scanning loop of `read_sms` (index.py lines 69-79).  `none`
models an uncaught Python exception: `parts[2]` raises `IndexError` when
a header has fewer than three comma-separated fields, and
`lines[i + 1]` raises `IndexError` when a header line is the final
line. -/
def read_loop (lines : List String) (i : Nat) : Option (List Msg) :=
  if _h : i < lines.length then
    let line := pyStrip (lines.getD i "")
    if pyStarts line "+CMGL:" then
      if 3 ≤ (splitOnCh ',' line.data).length then
        if i + 1 < lines.length then
          (read_loop lines (i + 2)).map
            (fun rest =>
              { index := extract_index line, phone := extract_phone line,
                content := pyStrip (lines.getD (i + 1) "") } :: rest)
        else none
      else none
    else read_loop lines (i + 1)
  else some []
termination_by lines.length - i

/-- Function `read_sms` (index.py lines 64-80), abstracted over the raw
`AT+CMGL="REC UNREAD"` response text. -/
def read_sms (raw : String) : Option (List Msg) :=
  read_loop (pySplitLines raw) 0

/-- Function `process_message` (index.py lines 193-201).  Returns the final store,
the reply, the report row, and the modem indices acknowledged with
`mark_sms_as_read` — which runs only when `send_sms` reported success. -/
def process_message (st : StoreI) (m : Msg) (sendResps : List String) (now : Int) :
    StoreI × String × Option RowI × List String :=
  let r := handle_response st m.phone m.content now
  (r.1, r.2.1, r.2.2, if (send_sms sendResps).1 then [m.index] else [])

/-- One sweep of `cleanup_sessions` (index.py lines 205-212). -/
def cleanup_sessions (st : StoreI) (now : Int) : StoreI :=
  fun p =>
    match st p with
    | some s => if now - s.last_active > SESSION_TIMEOUT then none else some s
    | none => none

end IndexBot


/-! ## Further definitions used by the claims -/

namespace FullBot

/-- Deliver a list of (text, arrival time) messages from one sender in
arrival order through `handle_message`, collecting the replies of each
message and every report row handed to the sink.  An `.error` outcome is
swallowed exactly as `process_message` swallows exceptions.  This models
the spec's per-sender serialized lane. -/
def runBot (p : String) : Store → List (String × Int) → Store × List (List String) × List Row
  | st, [] => (st, [], [])
  | st, (txt, tm) :: rest =>
    match handle_message st p txt tm with
    | .error stE =>
      let r := runBot p stE rest
      (r.1, [] :: r.2.1, r.2.2)
    | .ok (st2, sent, rep) =>
      let r := runBot p st2 rest
      (r.1, sent :: r.2.1, rep.toList ++ r.2.2)

/-- The prompt issued when a session enters the given step: the language
menu for step −1, the two-part group list for step 0, the k-th follow-up
question for step k ∈ 1..7. -/
def prompt_for (l : Lang) (step : Int) : List String :=
  if step = -1 then [LANGUAGE_MENU]
  else if step = 0 then [(group_list_parts l).1, (group_list_parts l).2]
  else [(followup_questions l).getD (step - 1).toNat ""]

/-- The notice `handle_message` prefixes to a re-prompt after invalid
input (none for the language step). -/
def invalid_notice (step : Int) : String :=
  if step = -1 then ""
  else if step = 0 then "Invalid group number. "
  else "Invalid number. "

/-- The reply to invalid input at the given step: the step's own prompt
with `invalid_notice` prefixed to its first message. -/
def invalid_reply (l : Lang) (step : Int) : List String :=
  match prompt_for l step with
  | [] => []
  | q :: rest => (invalid_notice step ++ q) :: rest

/-- The validation rule `handle_message` applies at each step. -/
def valid_input (step : Int) (text : String) : Bool :=
  if step = -1 then decide (text = "1" ∨ text = "2" ∨ text = "3")
  else if step = 0 then
    decide (pyIsDigit text = true ∧ 1 ≤ pyInt text ∧ pyInt text ≤ 17)
  else pyIsDigit text

/-- Whether handling `text` recorded the stripped text as the next answer
(appended to the stored session's answers, or — on completion — carried in
the report row). -/
def answer_recorded (st : Store) (p text : String) (now : Int)
    (prev : List String) : Bool :=
  match handle_message st p text now with
  | .error _ => false
  | .ok (st2, _, rep) =>
    match st2 p with
    | some s => decide (s.answers = prev ++ [pyStrip text])
    | none =>
      match rep with
      | some r => decide (r.answers = prev ++ [pyStrip text])
      | none => false

/-- Whether handling `text` at the group step recorded the selected group
and advanced to the first answer step. -/
def group_recorded (st : Store) (p text : String) (now : Int) : Bool :=
  match handle_message st p text now with
  | .error _ => false
  | .ok (st2, _, _) =>
    match st2 p with
    | some s =>
      decide (s.step = 1 ∧ s.group = some (groupNames.getD (pyInt (pyStrip text)) ""))
    | none => false

/-- The replies component of a `handle_message` outcome (empty on the
exception path). -/
def ok_sent (r : Except Store (Store × List String × Option Row)) : List String :=
  match r with
  | .ok (_, sent, _) => sent
  | .error _ => []

end FullBot

/-! ## The claimed parsing grammar (spec wording), for comparison with
`read_sms` -/

/-- The claim's index extraction: the first comma-separated field of the
header's payload (the text after the 6-character tag `+CMGL:`),
whitespace-stripped. -/
def spec_first_field (line : String) : String :=
  pyStrip (String.mk ((splitOnCh ',' (line.data.drop 6)).getD 0 []))

/-- The claim's sender extraction: the third comma-separated field of the
header line, stripped, with surrounding quotes removed. -/
def spec_third_field (line : String) : String :=
  let f := (pyStrip (String.mk ((splitOnCh ',' line.data).getD 2 []))).data
  if 2 ≤ f.length ∧ f.headD ' ' = '"' ∧ f.getLastD ' ' = '"' then
    String.mk ((f.drop 1).dropLast)
  else String.mk f

/-- The claim's grammar: a header line yields one message whose body is
the immediately following line (consumed, and empty when absent); any
other line contributes nothing. -/
def spec_scan : List String → List Msg
  | [] => []
  | [l] =>
    if pyStarts (pyStrip l) "+CMGL:" then
      [{ index := spec_first_field (pyStrip l), phone := spec_third_field (pyStrip l),
         content := "" }]
    else []
  | l :: l2 :: rest =>
    if pyStarts (pyStrip l) "+CMGL:" then
      { index := spec_first_field (pyStrip l), phone := spec_third_field (pyStrip l),
        content := pyStrip l2 } :: spec_scan rest
    else spec_scan (l2 :: rest)

/-! ## Store lemmas -/

namespace FullBot

theorem setS_self (st : Store) (p : String) (s : Session) : setS st p s p = some s := by
  simp [setS]

theorem setS_ne (st : Store) (p : String) (s : Session) (q : String) (h : q ≠ p) :
    setS st p s q = st q := by
  simp [setS, h]

theorem delS_self (st : Store) (p : String) : delS st p p = none := by
  simp [delS]

theorem delS_ne (st : Store) (p : String) (q : String) (h : q ≠ p) :
    delS st p q = st q := by
  simp [delS, h]

theorem setS_setS (st : Store) (p : String) (s1 s2 : Session) :
    setS (setS st p s1) p s2 = setS st p s2 := by
  funext q
  by_cases h : q = p <;> simp [setS, h]

/-- A trigger-bearing text cannot be one of the one-character language
codes. -/
theorem vsla_ne_codes (s : String) (h : hasSub (pyLower s) "vsla" = true) :
    s ≠ "1" ∧ s ≠ "2" ∧ s ≠ "3" := by
  refine ⟨?_, ?_, ?_⟩ <;> intro he <;> rw [he] at h <;> exact absurd h (by decide)

/-! ### Transition lemmas for `handle_message` -/

/-- No session and no trigger keyword: the message is ignored. -/
theorem hm_ignore (st : Store) (p text : String) (now : Int)
    (h1 : st p = none) (h2 : hasSub (pyLower (pyStrip text)) "vsla" = false) :
    handle_message st p text now = .ok (st, [], none) := by
  unfold handle_message
  simp [h1, h2]

/-- No session, trigger present: a fresh session at step −1 and the
language menu. -/
theorem hm_trigger (st : Store) (p text : String) (now : Int)
    (h1 : st p = none) (h2 : hasSub (pyLower (pyStrip text)) "vsla" = true) :
    handle_message st p text now =
      .ok (setS st p ⟨-1, none, none, [], now⟩, [LANGUAGE_MENU], none) := by
  obtain ⟨hne1, hne2, hne3⟩ := vsla_ne_codes _ h2
  unfold handle_message
  simp [h1, h2, hne1, hne2, hne3]

/-- Step −1, invalid selection: session untouched (but for the refreshed
`last_active`), menu re-sent. -/
theorem hm_lang_invalid (st : Store) (p text : String) (now : Int)
    (lg : Option Lang) (g : Option String) (ans : List String) (tla : Int)
    (hs : st p = some ⟨-1, lg, g, ans, tla⟩)
    (h1 : pyStrip text ≠ "1") (h2 : pyStrip text ≠ "2") (h3 : pyStrip text ≠ "3") :
    handle_message st p text now =
      .ok (setS st p ⟨-1, lg, g, ans, now⟩, [LANGUAGE_MENU], none) := by
  unfold handle_message
  simp [hs, h1, h2, h3]

/-- Step 0, valid group number: group recorded, step moves to 1, first
question sent. -/
theorem hm_group_valid (st : Store) (p text : String) (now : Int)
    (l : Lang) (g : Option String) (ans : List String) (tla : Int)
    (hs : st p = some ⟨0, some l, g, ans, tla⟩)
    (hd : pyIsDigit (pyStrip text) = true)
    (hr1 : 1 ≤ pyInt (pyStrip text)) (hr2 : pyInt (pyStrip text) ≤ 17) :
    handle_message st p text now =
      .ok (setS st p ⟨1, some l, some (groupNames.getD (pyInt (pyStrip text)) ""), ans, now⟩,
           [(followup_questions l).getD 0 ""], none) := by
  unfold handle_message
  simp [hs, hd, hr1, hr2, setS_setS]

/-- Step 0, invalid group number: session untouched (but for
`last_active`), group list re-sent with the invalid notice. -/
theorem hm_group_invalid (st : Store) (p text : String) (now : Int)
    (l : Lang) (g : Option String) (ans : List String) (tla : Int)
    (hs : st p = some ⟨0, some l, g, ans, tla⟩)
    (hv : ¬(pyIsDigit (pyStrip text) = true ∧ 1 ≤ pyInt (pyStrip text) ∧
            pyInt (pyStrip text) ≤ 17)) :
    handle_message st p text now =
      .ok (setS st p ⟨0, some l, g, ans, now⟩,
           ["Invalid group number. " ++ (group_list_parts l).1, (group_list_parts l).2],
           none) := by
  unfold handle_message
  simp only [hs]
  rw [if_neg (by rintro ⟨h, -⟩; exact Option.noConfusion h)]
  simp [hv, setS_setS]

/-- Steps 1..6, valid numeric answer: answer appended, step advanced,
next question sent. -/
theorem hm_answer_valid (st : Store) (p text : String) (now : Int)
    (k : Int) (l : Lang) (g : Option String) (ans : List String) (tla : Int)
    (hs : st p = some ⟨k, some l, g, ans, tla⟩)
    (hk1 : 1 ≤ k) (hk6 : k ≤ 6)
    (hd : pyIsDigit (pyStrip text) = true) :
    handle_message st p text now =
      .ok (setS st p ⟨k + 1, some l, g, ans ++ [pyStrip text], now⟩,
           [(followup_questions l).getD k.toNat ""], none) := by
  have e1 : ¬(k = -1) := by omega
  have e2 : ¬(k = 0) := by omega
  have e3 : (1:Int) ≤ k := hk1
  have e4 : k ≤ 7 := by omega
  have e5 : k + 1 ≤ 7 := by omega
  have e6 : k + 1 - 1 = k := by omega
  unfold handle_message
  simp [hs, hd, e1, e2, e3, e4, e5, e6, setS_setS]

/-- Step 7, valid numeric answer: session deleted, report row produced,
thank-you reply sent. -/
theorem hm_answer_final (st : Store) (p text : String) (now : Int)
    (l : Lang) (g : Option String) (ans : List String) (tla : Int)
    (hs : st p = some ⟨7, some l, g, ans, tla⟩)
    (hd : pyIsDigit (pyStrip text) = true) :
    handle_message st p text now =
      .ok (delS (setS st p ⟨8, some l, g, ans ++ [pyStrip text], now⟩) p,
           ["Thank you! Your report has been received and saved."],
           some ⟨p, some l, g.getD "", ans ++ [pyStrip text]⟩) := by
  unfold handle_message
  simp [hs, hd, setS_setS]

/-- Steps 1..7, invalid answer: session untouched (but for
`last_active`), same question re-sent with the invalid notice. -/
theorem hm_answer_invalid (st : Store) (p text : String) (now : Int)
    (k : Int) (l : Lang) (g : Option String) (ans : List String) (tla : Int)
    (hs : st p = some ⟨k, some l, g, ans, tla⟩)
    (hk1 : 1 ≤ k) (hk7 : k ≤ 7)
    (hd : pyIsDigit (pyStrip text) = false) :
    handle_message st p text now =
      .ok (setS st p ⟨k, some l, g, ans, now⟩,
           ["Invalid number. " ++ (followup_questions l).getD (k - 1).toNat ""],
           none) := by
  have e1 : ¬(k = -1) := by omega
  have e2 : ¬(k = 0) := by omega
  have e3 : (1:Int) ≤ k := hk1
  have e4 : k ≤ 7 := hk7
  unfold handle_message
  simp [hs, hd, e1, e2, e3, e4]

end FullBot


/-! ### Transition lemmas for `handle_response` (index.py) -/

namespace IndexBot

theorem setSI_self (st : StoreI) (p : String) (s : SessionI) : setS st p s p = some s := by
  simp [setS]

theorem setSI_ne (st : StoreI) (p : String) (s : SessionI) (q : String) (h : q ≠ p) :
    setS st p s q = st q := by
  simp [setS, h]

/-- No session, no trigger keyword: index.py still creates a step-0
session and replies with an instruction (it does not stay silent). -/
theorem ir_no_trigger (st : StoreI) (p msg : String) (now : Int)
    (h1 : st p = none) (h2 : hasSub (pyLower (pyStrip msg)) "vsla" = false) :
    handle_response st p msg now =
      (setS st p ⟨0, {}, now⟩,
       "Please start your message with \x27VSLA\x27 to report.", none) := by
  unfold handle_response
  simp [h1, h2]

/-- No session, trigger present: index.py creates a session already
advanced to the awaiting-group step and asks for the group number (there
is no language-selection state in index.py). -/
theorem ir_trigger (st : StoreI) (p msg : String) (now : Int)
    (h1 : st p = none) (h2 : hasSub (pyLower (pyStrip msg)) "vsla" = true) :
    handle_response st p msg now =
      (setS st p ⟨1, {}, now⟩,
       "Welcome! Choose your group number (1-17):", none) := by
  unfold handle_response
  simp [h1, h2]

end IndexBot

/-! ## Sequential per-sender delivery (the spec's lane ordering) -/

namespace FullBot

/-- Feeding a session sitting at answer step `k` enough valid numeric
answers to reach step 8 produces exactly one report row carrying the old
answers followed by the new ones in arrival order, and deletes the
session. -/
theorem run_to_completion (texts : List (String × Int)) :
    ∀ (st : Store) (p : String) (k : Int) (l : Lang) (g : String)
      (ans : List String) (tla : Int),
    st p = some ⟨k, some l, some g, ans, tla⟩ →
    1 ≤ k → k ≤ 7 → k + texts.length = 8 →
    (∀ x ∈ texts, pyIsDigit (pyStrip x.1) = true) →
    (runBot p st texts).2.2 = [⟨p, some l, g, ans ++ texts.map (fun x => pyStrip x.1)⟩]
    ∧ (runBot p st texts).1 p = none
    ∧ (∀ q, q ≠ p → (runBot p st texts).1 q = st q) := by
  induction texts with
  | nil =>
    intro st p k l g ans tla _ _ hk7 hlen _
    exfalso
    simp at hlen
    omega
  | cons x rest ih =>
    intro st p k l g ans tla hs hk1 hk7u hlen hv
    obtain ⟨a, t⟩ := x
    have hva : pyIsDigit (pyStrip a) = true := hv (a, t) (by simp)
    by_cases hk7 : k = 7
    · -- final answer: rest must be empty
      subst hk7
      have hrest : rest = [] := by
        have := hlen
        simp at this
        exact List.length_eq_zero.mp (by omega)
      subst hrest
      have e := hm_answer_final st p a t l (some g) ans tla hs hva
      simp only [runBot, e]
      refine ⟨by simp, ?_, ?_⟩
      · simp [delS_self]
      · intro q hq
        simp [delS_ne _ _ _ hq, setS_ne _ _ _ _ hq]
    · -- intermediate answer
      have hk6 : k ≤ 6 := by
        have := hlen
        simp at this
        omega
      have e := hm_answer_valid st p a t k l (some g) ans tla hs hk1 hk6 hva
      simp only [runBot, e]
      have hs2 : setS st p ⟨k + 1, some l, some g, ans ++ [pyStrip a], t⟩ p
          = some ⟨k + 1, some l, some g, ans ++ [pyStrip a], t⟩ := setS_self _ _ _
      have hr := ih (setS st p ⟨k + 1, some l, some g, ans ++ [pyStrip a], t⟩) p
        (k + 1) l g (ans ++ [pyStrip a]) t hs2 (by omega) (by omega)
        (by simp at hlen ⊢; omega) (fun y hy => hv y (by simp [hy]))
      refine ⟨?_, hr.2.1, ?_⟩
      · rw [hr.1]
        simp
      · intro q hq
        rw [hr.2.2 q hq, setS_ne _ _ _ _ hq]

/-- Function `save_to_csv` writes a seven-answer list as the seven answer cells in
order. -/
theorem save_to_csv_len7 (p : String) (lg : Option Lang) (g : String)
    (ys : List String) (ts : String) (h : ys.length = 7) :
    save_to_csv p lg g ys ts = [p, langCell lg, g] ++ ys ++ [ts] := by
  cases ys with
  | nil => simp at h
  | cons a1 ys =>
  cases ys with
  | nil => simp at h
  | cons a2 ys =>
  cases ys with
  | nil => simp at h
  | cons a3 ys =>
  cases ys with
  | nil => simp at h
  | cons a4 ys =>
  cases ys with
  | nil => simp at h
  | cons a5 ys =>
  cases ys with
  | nil => simp at h
  | cons a6 ys =>
  cases ys with
  | nil => simp at h
  | cons a7 ys =>
  cases ys with
  | nil => rfl
  | cons a8 ys => simp at h

end FullBot


/-- Python's `isdigit` is "non-empty and all characters decimal digits". -/
theorem pyIsDigit_iff (s : String) :
    pyIsDigit s = true ↔ (s.data ≠ [] ∧ s.data.all Char.isDigit = true) := by
  simp [pyIsDigit]

/-! ## Claims -/

/-- C1: for every sender whose session has a valid language and group
recorded (at the first answer step, with no answers yet), supplying
exactly 7 valid numeric answers produces one completed report row
containing those 7 (stripped) answer values in arrival order, hands it to
the CSV report sink — whose row lays the seven values out in order after
phone, language and group — and deletes that sender's session from the
store, leaving every other sender's entry untouched. -/
theorem claim_C1 (st : FullBot.Store) (p : String) (l : FullBot.Lang) (g : String)
    (tla : Int) (texts : List (String × Int)) (ts : String)
    (hs : st p = some ⟨1, some l, some g, [], tla⟩)
    (hlen : texts.length = 7)
    (hv : ∀ x ∈ texts, pyIsDigit (pyStrip x.1) = true) :
    (FullBot.runBot p st texts).2.2
        = [⟨p, some l, g, texts.map (fun x => pyStrip x.1)⟩]
    ∧ (FullBot.runBot p st texts).1 p = none
    ∧ (∀ q, q ≠ p → (FullBot.runBot p st texts).1 q = st q)
    ∧ FullBot.save_to_csv p (some l) g (texts.map (fun x => pyStrip x.1)) ts
        = [p, FullBot.langStr l, g] ++ texts.map (fun x => pyStrip x.1) ++ [ts] := by
  have hr := FullBot.run_to_completion texts st p 1 l g [] tla hs
    (by norm_num) (by norm_num) (by simp [hlen]) hv
  refine ⟨by simpa using hr.1, hr.2.1, hr.2.2, ?_⟩
  have hs7 : (texts.map (fun x => pyStrip x.1)).length = 7 := by simp [hlen]
  have h4 := FullBot.save_to_csv_len7 p (some l) g _ ts hs7
  simpa [FullBot.langCell] using h4

/-- Witness for C1: a concrete full run with seven answers. -/
theorem claim_C1_witness :
    (FullBot.runBot "265991112222"
        (fun q => if q = "265991112222" then
            some ⟨1, some FullBot.Lang.english, some "Chimnyanga", [], 0⟩ else none)
        [("12", 1), ("5", 2), ("3", 3), ("0", 4), ("7", 5), ("2", 6), ("1", 7)]).2.2
      = [⟨"265991112222", some FullBot.Lang.english, "Chimnyanga",
          ["12", "5", "3", "0", "7", "2", "1"]⟩]
    ∧ (FullBot.runBot "265991112222"
        (fun q => if q = "265991112222" then
            some ⟨1, some FullBot.Lang.english, some "Chimnyanga", [], 0⟩ else none)
        [("12", 1), ("5", 2), ("3", 3), ("0", 4), ("7", 5), ("2", 6), ("1", 7)]).1
        "265991112222" = none
    ∧ FullBot.save_to_csv "265991112222" (some FullBot.Lang.english) "Chimnyanga"
        ["12", "5", "3", "0", "7", "2", "1"] "2025-01-01, 10:00:00"
      = ["265991112222", "english", "Chimnyanga",
         "12", "5", "3", "0", "7", "2", "1", "2025-01-01, 10:00:00"] := by
  have h := claim_C1
    (fun q => if q = "265991112222" then
        some ⟨1, some FullBot.Lang.english, some "Chimnyanga", [], 0⟩ else none)
    "265991112222" FullBot.Lang.english "Chimnyanga" 0
    [("12", 1), ("5", 2), ("3", 3), ("0", 4), ("7", 5), ("2", 6), ("1", 7)]
    "2025-01-01, 10:00:00" (by decide) (by decide) (by decide)
  exact ⟨h.1, h.2.1, h.2.2.2⟩

/-- C2 counterexample: with no session and the non-trigger text
`"hello"`, index.py does create a session (at step 0) and does send a
reply, so the claim that the message is silently ignored with no session
and no reply is false of index.py's `handle_response`. -/
theorem claim_C2_counterexample :
    ((IndexBot.handle_response (fun _ => none) "265991112222" "hello" 5).1
        "265991112222" = some ⟨0, {}, 5⟩)
    ∧ (IndexBot.handle_response (fun _ => none) "265991112222" "hello" 5).2.1
        = "Please start your message with \x27VSLA\x27 to report."
    ∧ (IndexBot.handle_response (fun _ => none) "265991112222" "hello" 5).2.2
        = none := by
  refine ⟨by decide, by decide, by decide⟩

/-- C2 (amended): with no session and no trigger keyword in the text,
fullBot.py ignores the message entirely (no session, no reply, no
report), while index.py creates a step-0 session and replies with an
instruction to start with the trigger keyword (still no report). -/
theorem claim_C2 :
    (∀ (st : FullBot.Store) (p text : String) (now : Int),
        st p = none → hasSub (pyLower (pyStrip text)) "vsla" = false →
        FullBot.handle_message st p text now = .ok (st, [], none))
    ∧ (∀ (st : IndexBot.StoreI) (p text : String) (now : Int),
        st p = none → hasSub (pyLower (pyStrip text)) "vsla" = false →
        IndexBot.handle_response st p text now =
          (IndexBot.setS st p ⟨0, {}, now⟩,
           "Please start your message with \x27VSLA\x27 to report.", none)) :=
  ⟨FullBot.hm_ignore, IndexBot.ir_no_trigger⟩

/-- Witness for C2 at a concrete non-trigger message. -/
theorem claim_C2_witness :
    FullBot.handle_message (fun _ => none) "265991112222" "hello there" 0
      = .ok ((fun _ => none), [], none)
    ∧ IndexBot.handle_response (fun _ => none) "265991112222" "hello there" 0
      = (IndexBot.setS (fun _ => none) "265991112222" ⟨0, {}, 0⟩,
         "Please start your message with \x27VSLA\x27 to report.", none) :=
  ⟨claim_C2.1 _ _ _ _ rfl (by decide), claim_C2.2 _ _ _ _ rfl (by decide)⟩

/-- C3 counterexample: with no session and the trigger text
`"vsla report"`, index.py creates a session already at its group step
(step 1; index.py has no language-selection state at all) and replies
with a group-number prompt, not the language menu — so the claim is false
of index.py's `handle_response`. -/
theorem claim_C3_counterexample :
    (((IndexBot.handle_response (fun _ => none) "265991112222" "vsla report" 5).1
        "265991112222").map IndexBot.SessionI.step = some 1)
    ∧ (IndexBot.handle_response (fun _ => none) "265991112222" "vsla report" 5).2.1
        = "Welcome! Choose your group number (1-17):"
    ∧ "Welcome! Choose your group number (1-17):" ≠ FullBot.LANGUAGE_MENU := by
  refine ⟨by decide, by decide, by decide⟩

/-- C3 (amended): with no session and the trigger keyword present
(case-insensitively), fullBot.py creates a fresh session in the
awaiting-language state (step −1) and replies with the language menu;
index.py — which has no language step — creates a session advanced to its
awaiting-group step and replies with the group-number prompt. -/
theorem claim_C3 :
    (∀ (st : FullBot.Store) (p text : String) (now : Int),
        st p = none → hasSub (pyLower (pyStrip text)) "vsla" = true →
        FullBot.handle_message st p text now =
          .ok (FullBot.setS st p ⟨-1, none, none, [], now⟩,
               [FullBot.LANGUAGE_MENU], none))
    ∧ (∀ (st : IndexBot.StoreI) (p text : String) (now : Int),
        st p = none → hasSub (pyLower (pyStrip text)) "vsla" = true →
        IndexBot.handle_response st p text now =
          (IndexBot.setS st p ⟨1, {}, now⟩,
           "Welcome! Choose your group number (1-17):", none)) :=
  ⟨FullBot.hm_trigger, IndexBot.ir_trigger⟩

/-- Witness for C3 at a concrete trigger message (mixed case). -/
theorem claim_C3_witness :
    FullBot.handle_message (fun _ => none) "265991112222" "VSLA report" 0
      = .ok (FullBot.setS (fun _ => none) "265991112222" ⟨-1, none, none, [], 0⟩,
             [FullBot.LANGUAGE_MENU], none)
    ∧ IndexBot.handle_response (fun _ => none) "265991112222" "VSLA report" 0
      = (IndexBot.setS (fun _ => none) "265991112222" ⟨1, {}, 0⟩,
         "Welcome! Choose your group number (1-17):", none) :=
  ⟨claim_C3.1 _ _ _ _ rfl (by decide), claim_C3.2 _ _ _ _ rfl (by decide)⟩


/-- C4 counterexample: at answer step 1 (English), the invalid input
`"x"` re-prompts with `"Invalid number. "` prefixed to the question, so
the reply is not literally the same prompt as the one for that state. -/
theorem claim_C4_counterexample :
    FullBot.ok_sent (FullBot.handle_message
        (fun q => if q = "265991112222" then
            some ⟨1, some FullBot.Lang.english, some "Mkama", [], 0⟩ else none)
        "265991112222" "x" 5)
      = ["Invalid number. Number of members present today"]
    ∧ FullBot.prompt_for FullBot.Lang.english 1 = ["Number of members present today"]
    ∧ ["Invalid number. Number of members present today"]
        ≠ ["Number of members present today"] := by
  refine ⟨by decide, by decide, by decide⟩

/-- C4 (amended): for every stored session (any step −1..7; step ≥ 0
implies a language is recorded) and every input failing that step's
validation rule, `handle_message` leaves step, language, group and
answers unchanged (only `last_active` is refreshed) and replies with that
step's prompt — verbatim for the language step, and with an invalid
notice prefixed to the prompt's first message for the group and answer
steps. -/
theorem claim_C4 (st : FullBot.Store) (p text : String) (now : Int)
    (k : Int) (lg : Option FullBot.Lang) (l : FullBot.Lang) (g : Option String)
    (ans : List String) (tla : Int)
    (hs : st p = some ⟨k, lg, g, ans, tla⟩)
    (hk1 : -1 ≤ k) (hk2 : k ≤ 7)
    (hlg : 0 ≤ k → lg = some l)
    (hv : FullBot.valid_input k (pyStrip text) = false) :
    FullBot.handle_message st p text now
      = .ok (FullBot.setS st p ⟨k, lg, g, ans, now⟩, FullBot.invalid_reply l k, none)
    ∧ (k = -1 → FullBot.invalid_reply l k = FullBot.prompt_for l k) := by
  by_cases hkm : k = -1
  · subst hkm
    have hv3 : ¬(pyStrip text = "1" ∨ pyStrip text = "2" ∨ pyStrip text = "3") := by
      simpa [FullBot.valid_input] using hv
    push_neg at hv3
    obtain ⟨h1, h2, h3⟩ := hv3
    have hir : FullBot.invalid_reply l (-1) = [FullBot.LANGUAGE_MENU] := by
      simp [FullBot.invalid_reply, FullBot.prompt_for, FullBot.invalid_notice]
    refine ⟨?_, fun _ => by
      simp [hir, FullBot.prompt_for]⟩
    rw [hir]
    exact FullBot.hm_lang_invalid st p text now lg g ans tla hs h1 h2 h3
  · have hk0 : 0 ≤ k := by omega
    have hlg2 := hlg hk0
    subst hlg2
    by_cases hk00 : k = 0
    · subst hk00
      have hvc : ¬(pyIsDigit (pyStrip text) = true ∧ 1 ≤ pyInt (pyStrip text) ∧
          pyInt (pyStrip text) ≤ 17) := by
        simpa [FullBot.valid_input] using hv
      have hir : FullBot.invalid_reply l 0 =
          ["Invalid group number. " ++ (FullBot.group_list_parts l).1,
           (FullBot.group_list_parts l).2] := by
        simp [FullBot.invalid_reply, FullBot.prompt_for, FullBot.invalid_notice]
      refine ⟨?_, fun h => absurd h (by norm_num)⟩
      rw [hir]
      exact FullBot.hm_group_invalid st p text now l g ans tla hs hvc
    · have hka : 1 ≤ k := by omega
      have hvd : pyIsDigit (pyStrip text) = false := by
        simpa [FullBot.valid_input, hkm, hk00] using hv
      have hir : FullBot.invalid_reply l k =
          ["Invalid number. " ++ (FullBot.followup_questions l).getD (k - 1).toNat ""] := by
        simp [FullBot.invalid_reply, FullBot.prompt_for, FullBot.invalid_notice, hkm, hk00]
      refine ⟨?_, fun h => absurd h hkm⟩
      rw [hir]
      exact FullBot.hm_answer_invalid st p text now k l g ans tla hs hka hk2 hvd

/-- Witness for C4: invalid input at the group step. -/
theorem claim_C4_witness :
    FullBot.handle_message
        (fun q => if q = "265991112222" then
            some ⟨0, some FullBot.Lang.english, none, [], 3⟩ else none)
        "265991112222" "abc" 9
      = .ok (FullBot.setS
              (fun q => if q = "265991112222" then
                  some ⟨0, some FullBot.Lang.english, none, [], 3⟩ else none)
              "265991112222" ⟨0, some FullBot.Lang.english, none, [], 9⟩,
             FullBot.invalid_reply FullBot.Lang.english 0, none) :=
  (claim_C4
    (fun q => if q = "265991112222" then
        some ⟨0, some FullBot.Lang.english, none, [], 3⟩ else none)
    "265991112222" "abc" 9 0 (some FullBot.Lang.english) FullBot.Lang.english
    none [] 3 rfl (by norm_num) (by norm_num) (fun _ => rfl) (by decide)).1

/-- C5 counterexample: index.py's `send_sms` performs a single attempt,
so with no success token it reports failure after 1 attempt, not after
`MAX_RETRIES` (3). -/
theorem claim_C5_counterexample :
    IndexBot.send_sms ["ERROR"] = (false, 1) ∧ (1 : Nat) ≠ 3 := by
  refine ⟨by decide, by decide⟩

/-- C5 (amended): fullBot.py's `send_sms` succeeds on the first attempt
when that attempt's response carries the success token, and returns
failure after exactly 3 attempts when no attempt's response carries it;
index.py's `send_sms` always performs exactly one attempt. -/
theorem claim_C5 :
    (∀ resps : List String, FullBot.send_ok_token (resps.getD 0 "") = true →
        FullBot.send_sms resps = (true, 1))
    ∧ (∀ resps : List String,
        (∀ i, i < 3 → FullBot.send_ok_token (resps.getD i "") = false) →
        FullBot.send_sms resps = (false, 3))
    ∧ (∀ resps : List String, (IndexBot.send_sms resps).2 = 1) := by
  refine ⟨?_, ?_, fun _ => rfl⟩
  · intro resps h
    simp at h
    simp [FullBot.send_sms, FullBot.send_attempts, h]
  · intro resps h
    have h0 := h 0 (by norm_num)
    have h1 := h 1 (by norm_num)
    have h2 := h 2 (by norm_num)
    simp at h0 h1 h2
    simp [FullBot.send_sms, FullBot.send_attempts, h0, h1, h2]

/-- Witness for C5: a first-attempt success, a three-attempt failure, and
index.py's single attempt. -/
theorem claim_C5_witness :
    FullBot.send_sms ["AT+CMGS=... OK"] = (true, 1)
    ∧ FullBot.send_sms ["garbled", "", "still bad"] = (false, 3)
    ∧ (IndexBot.send_sms ["garbled"]).2 = 1 :=
  ⟨claim_C5.1 _ (by decide), claim_C5.2.1 _ (by decide), claim_C5.2.2 _⟩

/-- C6 counterexample: with a response carrying no success token,
index.py's `process_message` performs no acknowledgment even though the
message was fully processed (a reply was produced) — the acknowledgment
is not unconditional there. -/
theorem claim_C6_counterexample :
    (IndexBot.process_message (fun _ => none) ⟨"4", "265991112222", "vsla"⟩
        ["no token here"] 0).2.2.2 = []
    ∧ (IndexBot.process_message (fun _ => none) ⟨"4", "265991112222", "vsla"⟩
        ["no token here"] 0).2.1 = "Welcome! Choose your group number (1-17):" := by
  refine ⟨by decide, by decide⟩

/-- C6 (amended): fullBot.py's `process_message` issues the deletion
acknowledgment for every dispatched message, whatever `handle_message`
did (including the exception path); index.py's `process_message`
acknowledges exactly when the reply send reported success. -/
theorem claim_C6 :
    (∀ (st : FullBot.Store) (m : Msg) (now : Int),
        (FullBot.process_message st m now).2.2.2 = [m.index])
    ∧ (∀ (st : IndexBot.StoreI) (m : Msg) (resps : List String) (now : Int),
        (IndexBot.process_message st m resps now).2.2.2
          = if (IndexBot.send_sms resps).1 = true then [m.index] else []) := by
  constructor
  · intro st m now
    cases h : FullBot.handle_message st m.phone m.content now with
    | error stE => simp [FullBot.process_message, h]
    | ok r =>
      obtain ⟨st2, sent, rep⟩ := r
      simp [FullBot.process_message, h]
  · intro st m resps now
    rfl

/-- C7: after one reaper sweep at time `now` (in either script), a stored
session strictly older than `SESSION_TIMEOUT` is gone, and one strictly
younger is still present and unchanged. -/
theorem claim_C7 :
    (∀ (st : FullBot.Store) (now : Int) (p : String) (s : FullBot.Session),
        st p = some s →
        (now - s.last_active > FullBot.SESSION_TIMEOUT →
            FullBot.cleanup_sessions st now p = none)
        ∧ (now - s.last_active < FullBot.SESSION_TIMEOUT →
            FullBot.cleanup_sessions st now p = some s))
    ∧ (∀ (st : IndexBot.StoreI) (now : Int) (p : String) (s : IndexBot.SessionI),
        st p = some s →
        (now - s.last_active > IndexBot.SESSION_TIMEOUT →
            IndexBot.cleanup_sessions st now p = none)
        ∧ (now - s.last_active < IndexBot.SESSION_TIMEOUT →
            IndexBot.cleanup_sessions st now p = some s)) := by
  constructor
  · intro st now p s hs
    constructor
    · intro h
      simp [FullBot.cleanup_sessions, hs, h]
    · intro h
      simp [FullBot.cleanup_sessions, hs]
      omega
  · intro st now p s hs
    constructor
    · intro h
      simp [IndexBot.cleanup_sessions, hs, h]
    · intro h
      simp [IndexBot.cleanup_sessions, hs]
      omega

/-- Witness for C7: a 5000-second-old session is evicted, a 100-second-old
one is retained unchanged, in both scripts (timeout 2400). -/
theorem claim_C7_witness :
    FullBot.cleanup_sessions
        (fun q => if q = "p" then
            some ⟨1, some FullBot.Lang.english, none, [], 0⟩ else none) 5000 "p" = none
    ∧ FullBot.cleanup_sessions
        (fun q => if q = "p" then
            some ⟨1, some FullBot.Lang.english, none, [], 0⟩ else none) 100 "p"
        = some ⟨1, some FullBot.Lang.english, none, [], 0⟩
    ∧ IndexBot.cleanup_sessions
        (fun q => if q = "p" then some ⟨0, {}, 0⟩ else none) 5000 "p" = none
    ∧ IndexBot.cleanup_sessions
        (fun q => if q = "p" then some ⟨0, {}, 0⟩ else none) 100 "p"
        = some ⟨0, {}, 0⟩ :=
  ⟨(claim_C7.1 _ 5000 "p" _ rfl).1 (by decide),
   (claim_C7.1 _ 100 "p" _ rfl).2 (by decide),
   (claim_C7.2 _ 5000 "p" _ rfl).1 (by decide),
   (claim_C7.2 _ 100 "p" _ rfl).2 (by decide)⟩

/-- C8 counterexample: an all-whitespace SMS strips to the empty string,
every character of which is (vacuously) a decimal digit, yet the answer
step rejects it — so "accepted iff every character is a decimal digit" is
false; non-emptiness is also required. -/
theorem claim_C8_counterexample :
    (pyStrip " ").data.all Char.isDigit = true
    ∧ FullBot.answer_recorded
        (fun q => if q = "265991112222" then
            some ⟨1, some FullBot.Lang.english, some "Ukwe", [], 0⟩ else none)
        "265991112222" " " 4 [] = false := by
  refine ⟨by decide, by decide⟩

/-- C8 (amended): at every answer step the (stripped) input is recorded
iff it is non-empty and all of its characters are decimal digits; at the
group step the group is recorded and the step advances iff additionally
the numeric value lies in 1..17. -/
theorem claim_C8 :
    (∀ (st : FullBot.Store) (p text : String) (now : Int) (k : Int)
        (l : FullBot.Lang) (g : Option String) (ans : List String) (tla : Int),
      st p = some ⟨k, some l, g, ans, tla⟩ → 1 ≤ k → k ≤ 7 →
      (FullBot.answer_recorded st p text now ans = true ↔
        ((pyStrip text).data ≠ [] ∧ (pyStrip text).data.all Char.isDigit = true)))
    ∧ (∀ (st : FullBot.Store) (p text : String) (now : Int)
        (l : FullBot.Lang) (g : Option String) (ans : List String) (tla : Int),
      st p = some ⟨0, some l, g, ans, tla⟩ →
      (FullBot.group_recorded st p text now = true ↔
        ((pyStrip text).data ≠ [] ∧ (pyStrip text).data.all Char.isDigit = true
          ∧ 1 ≤ pyInt (pyStrip text) ∧ pyInt (pyStrip text) ≤ 17))) := by
  constructor
  · intro st p text now k l g ans tla hs hk1 hk7
    rw [← pyIsDigit_iff]
    by_cases hd : pyIsDigit (pyStrip text) = true
    · simp only [hd, iff_true]
      by_cases hk : k = 7
      · subst hk
        have e := FullBot.hm_answer_final st p text now l g ans tla hs hd
        simp [FullBot.answer_recorded, e, FullBot.delS]
      · have hk6 : k ≤ 6 := by omega
        have e := FullBot.hm_answer_valid st p text now k l g ans tla hs hk1 hk6 hd
        simp [FullBot.answer_recorded, e, FullBot.setS]
    · have hd2 : pyIsDigit (pyStrip text) = false := by simpa using hd
      have e := FullBot.hm_answer_invalid st p text now k l g ans tla hs hk1 hk7 hd2
      simp [FullBot.answer_recorded, e, FullBot.setS, hd2]
  · intro st p text now l g ans tla hs
    have hiff : ((pyStrip text).data ≠ [] ∧ (pyStrip text).data.all Char.isDigit = true
          ∧ 1 ≤ pyInt (pyStrip text) ∧ pyInt (pyStrip text) ≤ 17)
        ↔ (pyIsDigit (pyStrip text) = true ∧ 1 ≤ pyInt (pyStrip text) ∧
            pyInt (pyStrip text) ≤ 17) := by
      rw [pyIsDigit_iff]
      tauto
    rw [hiff]
    by_cases hc : pyIsDigit (pyStrip text) = true ∧ 1 ≤ pyInt (pyStrip text) ∧
        pyInt (pyStrip text) ≤ 17
    · have e := FullBot.hm_group_valid st p text now l g ans tla hs hc.1 hc.2.1 hc.2.2
      simp [FullBot.group_recorded, e, FullBot.setS, hc]
    · have e := FullBot.hm_group_invalid st p text now l g ans tla hs hc
      simp [FullBot.group_recorded, e, FullBot.setS, hc]

/-- Witness for C8: `"42"` is recorded at an answer step, `"3"` is
recorded at the group step. -/
theorem claim_C8_witness :
    FullBot.answer_recorded
        (fun q => if q = "265991112222" then
            some ⟨1, some FullBot.Lang.english, some "Ukwe", [], 0⟩ else none)
        "265991112222" "42" 4 [] = true
    ∧ FullBot.group_recorded
        (fun q => if q = "265991112222" then
            some ⟨0, some FullBot.Lang.english, none, [], 0⟩ else none)
        "265991112222" "3" 4 = true := by
  constructor
  · exact (claim_C8.1 _ "265991112222" "42" 4 1 FullBot.Lang.english (some "Ukwe")
      [] 0 rfl (by norm_num) (by norm_num)).mpr (by decide)
  · exact (claim_C8.2 _ "265991112222" "3" 4 FullBot.Lang.english none
      [] 0 rfl).mpr (by decide)


/-! ## Unfolding lemmas for the `read_sms` scanning loops -/

/-- fullBot.py loop: past the end, the scan stops. -/
theorem read_loop_stop (lines : List String) (i : Nat) (h : ¬ i < lines.length) :
    FullBot.read_loop lines i = [] := by
  rw [FullBot.read_loop, dif_neg h]

/-- fullBot.py loop: a header line yields a message and the scan resumes
two lines later. -/
theorem read_loop_header (lines : List String) (i : Nat) (h : i < lines.length)
    (hh : pyStarts (pyStrip (lines.getD i "")) "+CMGL:" = true) :
    FullBot.read_loop lines i =
      { index := FullBot.extract_index (pyStrip (lines.getD i "")),
        phone := FullBot.extract_phone (pyStrip (lines.getD i "")),
        content := if i + 1 < lines.length then pyStrip (lines.getD (i + 1) "") else "" }
      :: FullBot.read_loop lines (i + 2) := by
  rw [FullBot.read_loop, dif_pos h]
  simp only [hh, if_true]

/-- fullBot.py loop: a non-header line is skipped. -/
theorem read_loop_skip (lines : List String) (i : Nat) (h : i < lines.length)
    (hh : pyStarts (pyStrip (lines.getD i "")) "+CMGL:" = false) :
    FullBot.read_loop lines i = FullBot.read_loop lines (i + 1) := by
  rw [FullBot.read_loop, dif_pos h]
  simp only [hh, Bool.false_eq_true, if_false]

/-- index.py loop: past the end, the scan stops. -/
theorem read_loop_idx_stop (lines : List String) (i : Nat) (h : ¬ i < lines.length) :
    IndexBot.read_loop lines i = some [] := by
  rw [IndexBot.read_loop, dif_neg h]

/-- index.py loop: a header line as the final line raises (`lines[i + 1]`
is out of range). -/
theorem read_loop_idx_last_header (lines : List String) (i : Nat)
    (h : i < lines.length)
    (hh : pyStarts (pyStrip (lines.getD i "")) "+CMGL:" = true)
    (hf : 3 ≤ (splitOnCh ',' (pyStrip (lines.getD i "")).data).length)
    (h2 : ¬ i + 1 < lines.length) :
    IndexBot.read_loop lines i = none := by
  rw [IndexBot.read_loop, dif_pos h]
  simp only [hh, if_true, hf, h2, if_false]

/-- The fullBot.py scanning loop implements exactly the claimed grammar,
provided the source's field extraction agrees with the claimed field
description on each header line (which holds for well-formed `+CMGL`
headers; the hypotheses are decidable per line). -/
theorem read_loop_eq_spec_scan (lines : List String)
    (hidx : ∀ l ∈ lines, pyStarts (pyStrip l) "+CMGL:" = true →
      FullBot.extract_index (pyStrip l) = spec_first_field (pyStrip l))
    (hph : ∀ l ∈ lines, pyStarts (pyStrip l) "+CMGL:" = true →
      FullBot.extract_phone (pyStrip l) = spec_third_field (pyStrip l)) :
    ∀ n i, lines.length - i ≤ n → FullBot.read_loop lines i = spec_scan (lines.drop i) := by
  intro n
  induction n with
  | zero =>
    intro i hi
    rw [read_loop_stop lines i (by omega), List.drop_eq_nil_of_le (by omega)]
    rfl
  | succ n ihn =>
    intro i hi
    by_cases hlt : i < lines.length
    · have hgd : lines.getD i "" = lines[i] := List.getD_eq_getElem lines "" hlt
      have hdrop : lines.drop i = lines[i] :: lines.drop (i + 1) :=
        List.drop_eq_getElem_cons hlt
      have hmem : lines[i] ∈ lines := List.getElem_mem hlt
      by_cases hh : pyStarts (pyStrip (lines.getD i "")) "+CMGL:" = true
      · have hh2 : pyStarts (pyStrip lines[i]) "+CMGL:" = true := by rwa [hgd] at hh
        rw [read_loop_header lines i hlt hh, hdrop, hgd]
        by_cases h2 : i + 1 < lines.length
        · have hgd2 : lines.getD (i + 1) "" = lines[i + 1] := List.getD_eq_getElem lines "" h2
          have hdrop2 : lines.drop (i + 1) = lines[i + 1] :: lines.drop (i + 2) :=
            List.drop_eq_getElem_cons h2
          rw [hdrop2, if_pos h2, hgd2]
          simp only [spec_scan, hh2, if_true]
          rw [hidx lines[i] hmem hh2, hph lines[i] hmem hh2, ihn (i + 2) (by omega)]
        · rw [if_neg h2, List.drop_eq_nil_of_le (by omega : lines.length ≤ i + 1)]
          simp only [spec_scan, hh2, if_true]
          rw [hidx lines[i] hmem hh2, hph lines[i] hmem hh2,
              read_loop_stop lines (i + 2) (by omega)]
      · have hh2 : pyStarts (pyStrip (lines.getD i "")) "+CMGL:" = false := by
          simpa using hh
        have hh3 : pyStarts (pyStrip lines[i]) "+CMGL:" = false := by rwa [hgd] at hh2
        rw [read_loop_skip lines i hlt hh2, hdrop, ihn (i + 1) (by omega)]
        cases hdr : lines.drop (i + 1) with
        | nil => simp [spec_scan, hh3, hdr]
        | cons b t => simp [spec_scan, hh3, hdr]
    · rw [read_loop_stop lines i hlt, List.drop_eq_nil_of_le (by omega)]
      rfl

/-- C9: for every raw multi-line modem response whose header lines are
well-formed (the source's positional field extraction and the claimed
"first header field" / "third comma-separated field, surrounding quotes
removed" description agree on each header line — a decidable, per-line
condition satisfied by real `+CMGL` headers), `read_sms` returns exactly
the messages of the claimed grammar: one message per header line, body
taken from the immediately following (consumed) line, all other lines
ignored. -/
theorem claim_C9 (raw : String)
    (hidx : ∀ l ∈ pySplitLines raw, pyStarts (pyStrip l) "+CMGL:" = true →
      FullBot.extract_index (pyStrip l) = spec_first_field (pyStrip l))
    (hph : ∀ l ∈ pySplitLines raw, pyStarts (pyStrip l) "+CMGL:" = true →
      FullBot.extract_phone (pyStrip l) = spec_third_field (pyStrip l)) :
    FullBot.read_sms raw = spec_scan (pySplitLines raw) := by
  have h := read_loop_eq_spec_scan (pySplitLines raw) hidx hph
    (pySplitLines raw).length 0 (by omega)
  simpa [FullBot.read_sms] using h

/-- Witness for C9: a realistic two-message `+CMGL` response with quoted
commas and timestamp colons inside header fields. -/
theorem claim_C9_witness :
    FullBot.read_sms ("AT+CMGL=\"REC UNREAD\"\r\n+CMGL: 1,\"REC UNREAD\",\"+265991112222\",,\"24/01/01,12:30:45+08\"\r\nvsla report\r\n+CMGL: 4,\"REC UNREAD\",\"265888777666\"\r\nhello\r\nOK\r\n")
      = spec_scan (pySplitLines "AT+CMGL=\"REC UNREAD\"\r\n+CMGL: 1,\"REC UNREAD\",\"+265991112222\",,\"24/01/01,12:30:45+08\"\r\nvsla report\r\n+CMGL: 4,\"REC UNREAD\",\"265888777666\"\r\nhello\r\nOK\r\n")
    ∧ spec_scan (pySplitLines "AT+CMGL=\"REC UNREAD\"\r\n+CMGL: 1,\"REC UNREAD\",\"+265991112222\",,\"24/01/01,12:30:45+08\"\r\nvsla report\r\n+CMGL: 4,\"REC UNREAD\",\"265888777666\"\r\nhello\r\nOK\r\n")
      = [{ index := "1", phone := "+265991112222", content := "vsla report" },
         { index := "4", phone := "265888777666", content := "hello" }] :=
  ⟨claim_C9 _ (by decide) (by decide), by decide⟩

/-- C10 counterexample: on a response whose single line is a header,
fullBot.py's `read_sms` returns one message with an empty body, but
index.py's `read_sms` raises `IndexError` on `lines[i + 1]` (modelled as
`none`) — so "the unread-message parsing function is total" is false of
index.py. -/
theorem claim_C10_counterexample :
    IndexBot.read_sms "+CMGL: 1,\"REC UNREAD\",\"+265991112222\"" = none
    ∧ FullBot.read_sms "+CMGL: 1,\"REC UNREAD\",\"+265991112222\""
        = [{ index := "1", phone := "+265991112222", content := "" }] := by
  have hsp : pySplitLines "+CMGL: 1,\"REC UNREAD\",\"+265991112222\""
      = ["+CMGL: 1,\"REC UNREAD\",\"+265991112222\""] := by decide
  constructor
  · show IndexBot.read_loop (pySplitLines "+CMGL: 1,\"REC UNREAD\",\"+265991112222\"") 0 = none
    rw [hsp]
    exact read_loop_idx_last_header _ 0 (by decide) (by decide) (by decide) (by decide)
  · show FullBot.read_loop (pySplitLines "+CMGL: 1,\"REC UNREAD\",\"+265991112222\"") 0
        = [{ index := "1", phone := "+265991112222", content := "" }]
    rw [hsp, read_loop_header _ 0 (by decide) (by decide),
        read_loop_stop _ 2 (by decide)]
    decide

/-- C10 (amended): when a header line is the final line of the response,
fullBot.py's scan is total and yields that message with an empty body,
while index.py's scan raises (returns `none`). -/
theorem claim_C10 (lines : List String) (i : Nat) (hi : i < lines.length)
    (hlast : i + 1 = lines.length)
    (hh : pyStarts (pyStrip (lines.getD i "")) "+CMGL:" = true)
    (hf : 3 ≤ (splitOnCh ',' (pyStrip (lines.getD i "")).data).length) :
    FullBot.read_loop lines i
      = [{ index := FullBot.extract_index (pyStrip (lines.getD i "")),
           phone := FullBot.extract_phone (pyStrip (lines.getD i "")),
           content := "" }]
    ∧ IndexBot.read_loop lines i = none := by
  constructor
  · rw [read_loop_header lines i hi hh, if_neg (by omega),
        read_loop_stop lines (i + 2) (by omega)]
  · exact read_loop_idx_last_header lines i hi hh hf (by omega)

/-- Witness for C10 at a concrete trailing header line. -/
theorem claim_C10_witness :
    FullBot.read_loop ["junk line", "+CMGL: 7,\"REC UNREAD\",\"+265888000111\""] 1
      = [{ index := "7", phone := "+265888000111", content := "" }]
    ∧ IndexBot.read_loop ["junk line", "+CMGL: 7,\"REC UNREAD\",\"+265888000111\""] 1
      = none := by
  have h := claim_C10 ["junk line", "+CMGL: 7,\"REC UNREAD\",\"+265888000111\""] 1
    (by decide) (by decide) (by decide) (by decide)
  exact ⟨by rw [h.1]; decide, h.2⟩
